import Mathlib

/-!
# Installer tracker (`internal/plugins/installer_tracker.go`)

A shallow embedding of the plugin-installer tracker of the playground CLI.
The tracker keeps one ConfigMap, `playground-plugin-installer-tracker` in
`kube-system`, whose `Data` maps a plugin name to the installer type that
installed it.  The four public operations talk to the cluster through the
ConfigMap client (get, create, update); here the cluster is an explicit state
that every operation threads through.
-/

namespace InstallerTracker

/-! ## Constants -/

def InstallerTrackerConfigMapName : String := "playground-plugin-installer-tracker"
def InstallerTrackerNamespace : String := "kube-system"
def InstallerTypeHelm : String := "helm"
def InstallerTypeArgoCD : String := "argocd"

/-! ## Data model -/

/-- A Go `map[string]string`: finitely many entries, keys pairwise distinct. -/
abbrev StringMap := AList (fun _ : String => String)

/-- The part of `v1.ConfigMap` the tracker reads and writes.  `Data = none` is
Go's nil map. -/
structure ConfigMap where
  Name : String
  Namespace : String
  Labels : List (String × String)
  Data : Option StringMap
deriving DecidableEq

/-- A Go `error` value coming out of the ConfigMap client: `text` is what
`err.Error()` returns, `doesNotExist` is the client's own classification of the
failure as "the requested resource does not exist". -/
structure RemoteError where
  doesNotExist : Bool
  text : String
deriving DecidableEq

/-- One call issued to the ConfigMap client. -/
inductive Call where
  | get (ns name : String)
  | create (cm : ConfigMap)
  | update (cm : ConfigMap)
deriving DecidableEq

/-- State of the cluster as seen through the ConfigMap client.
* `stored`: the object at the tracker's fixed namespace and name, if any;
* `faults`: what happens to the coming remote calls, one entry per call:
  `some e` makes the call fail with `e` without touching `stored`
  (deadline exceeded, network failure, permission failure, ...), `none`, or an
  exhausted list, lets the call be answered from `stored`;
* `calls`: the remote calls issued so far, oldest first. -/
structure Cluster where
  stored : Option ConfigMap
  faults : List (Option RemoteError)
  calls : List Call
deriving DecidableEq

/-! ## Go library functions -/

/-- The Go function `strings.Contains(s, substr)`. -/
def stringsContains (s substr : String) : Bool :=
  s.data.tails.any (fun t => substr.data.isPrefixOf t)

/-- The Go call `fmt.Errorf(ctx + ": %w", err)`: the message is prefixed, the
wrapped error keeps its classification. -/
def wrapError (ctx : String) (err : RemoteError) : RemoteError :=
  { err with text := ctx ++ ": " ++ err.text }

/-- Indexing a Go map: the zero value `""` for a missing key. -/
def mapIndex (m : StringMap) (key : String) : String :=
  (m.lookup key).getD ""

/-! ## The ConfigMap client -/

/-- The failure injected into the next remote call, if any. -/
def nextFault (c : Cluster) : Option RemoteError :=
  match c.faults with
  | some e :: _ => some e
  | _ => none

/-- The error of the client for a missing object. -/
def notFoundError (name : String) : RemoteError :=
  { doesNotExist := true, text := "configmaps \"" ++ name ++ "\" not found" }

/-- The error of the client for creating an object that is already there. -/
def alreadyExistsError (name : String) : RemoteError :=
  { doesNotExist := false, text := "configmaps \"" ++ name ++ "\" already exists" }

/-- Modelled from the spec: the remote object client's `get` (the ConfigMap
client of the Kubernetes library, not part of this repository).  It returns
the stored document, reports "does not exist" when there is none, or fails
with the injected error. -/
def clientGet (ns name : String) (c : Cluster) : Except RemoteError ConfigMap × Cluster :=
  let c1 : Cluster := { c with faults := c.faults.tail, calls := c.calls ++ [Call.get ns name] }
  match nextFault c with
  | some e => (.error e, c1)
  | none =>
    match c.stored with
    | some cm => (.ok cm, c1)
    | none => (.error (notFoundError name), c1)

/-- Modelled from the spec: the remote object client's `create` (Kubernetes
library).  On success the document is stored and returned; a failed call
leaves the store as it was. -/
def clientCreate (cm : ConfigMap) (c : Cluster) : Except RemoteError ConfigMap × Cluster :=
  let c1 : Cluster := { c with faults := c.faults.tail, calls := c.calls ++ [Call.create cm] }
  match nextFault c with
  | some e => (.error e, c1)
  | none =>
    match c.stored with
    | some _ => (.error (alreadyExistsError cm.Name), c1)
    | none => (.ok cm, { c1 with stored := some cm })

/-- Modelled from the spec: the remote object client's `update` (Kubernetes
library), a full-document replace.  On success the stored document is
replaced by the given one; a failed call leaves the store as it was. -/
def clientUpdate (cm : ConfigMap) (c : Cluster) : Except RemoteError ConfigMap × Cluster :=
  let c1 : Cluster := { c with faults := c.faults.tail, calls := c.calls ++ [Call.update cm] }
  match nextFault c with
  | some e => (.error e, c1)
  | none =>
    match c.stored with
    | some _ => (.ok cm, { c1 with stored := some cm })
    | none => (.error (notFoundError cm.Name), c1)

/-! ## The tracker -/

/-- The document `getOrCreateTrackerConfigMap` creates: fixed identity, the
three static labels, an empty map. -/
def newConfigMap : ConfigMap :=
  { Name := InstallerTrackerConfigMapName
    Namespace := InstallerTrackerNamespace
    Labels := [("app.kubernetes.io/name", "playground"),
               ("app.kubernetes.io/component", "installer-tracker"),
               ("app.kubernetes.io/managed-by", "playground")]
    Data := some ∅ }

/-- `InstallerTracker.getOrCreateTrackerConfigMap`. -/
def getOrCreateTrackerConfigMap (c : Cluster) : Except RemoteError ConfigMap × Cluster :=
  match clientGet InstallerTrackerNamespace InstallerTrackerConfigMapName c with
  | (.ok configMap, c1) => (.ok configMap, c1)
  | (.error err, c1) =>
    if !stringsContains err.text "not found" then
      (.error (wrapError "failed to get tracker ConfigMap" err), c1)
    else
      match clientCreate newConfigMap c1 with
      | (.error err, c2) => (.error (wrapError "failed to create tracker ConfigMap" err), c2)
      | (.ok createdConfigMap, c2) => (.ok createdConfigMap, c2)

/-- `InstallerTracker.RecordPluginInstaller`; the result is Go's `error`,
`none` for `nil`. -/
def RecordPluginInstaller (pluginName installerType : String) (c : Cluster) :
    Option RemoteError × Cluster :=
  match getOrCreateTrackerConfigMap c with
  | (.error err, c1) => (some (wrapError "failed to get or create tracker ConfigMap" err), c1)
  | (.ok configMap, c1) =>
    let data : StringMap :=
      match configMap.Data with
      | none => ∅
      | some d => d
    let configMap : ConfigMap := { configMap with Data := some (data.insert pluginName installerType) }
    match clientUpdate configMap c1 with
    | (.error err, c2) => (some (wrapError "failed to update tracker ConfigMap" err), c2)
    | (.ok _, c2) => (none, c2)

/-- `InstallerTracker.GetAllPluginByInstaller`; Go's nil slice is `[]`.  The
loop ranges over the map's entries in the order the map happens to give. -/
def GetAllPluginByInstaller (installer : String) (c : Cluster) :
    (List String × Option RemoteError) × Cluster :=
  match clientGet InstallerTrackerNamespace InstallerTrackerConfigMapName c with
  | (.error err, c1) =>
    if stringsContains err.text "not found" then
      (([], none), c1)
    else
      (([], some (wrapError "failed to get tracker ConfigMap" err)), c1)
  | (.ok configMap, c1) =>
    match configMap.Data with
    | none => (([], none), c1)
    | some d =>
      let data : List String :=
        d.entries.foldl
          (fun data e => if e.2 = installer then data ++ [e.1] else data) []
      ((data, none), c1)

/-- `InstallerTracker.GetPluginInstaller`. -/
def GetPluginInstaller (pluginName : String) (c : Cluster) :
    (String × Option RemoteError) × Cluster :=
  match clientGet InstallerTrackerNamespace InstallerTrackerConfigMapName c with
  | (.error err, c1) =>
    if stringsContains err.text "not found" then
      (("", none), c1)
    else
      (("", some (wrapError "failed to get tracker ConfigMap" err)), c1)
  | (.ok configMap, c1) =>
    match configMap.Data with
    | none => (("", none), c1)
    | some d => ((mapIndex d pluginName, none), c1)

/-- `InstallerTracker.RemovePluginInstaller`. -/
def RemovePluginInstaller (pluginName : String) (c : Cluster) :
    Option RemoteError × Cluster :=
  match clientGet InstallerTrackerNamespace InstallerTrackerConfigMapName c with
  | (.error err, c1) =>
    if stringsContains err.text "not found" then
      (none, c1)
    else
      (some (wrapError "failed to get tracker ConfigMap" err), c1)
  | (.ok configMap, c1) =>
    match configMap.Data with
    | none => (none, c1)
    | some d =>
      let configMap : ConfigMap := { configMap with Data := some (d.erase pluginName) }
      match clientUpdate configMap c1 with
      | (.error err, c2) => (some (wrapError "failed to update tracker ConfigMap" err), c2)
      | (.ok _, c2) => (none, c2)

/-! ## Derived notions used in the statements -/

/-- The map of a document, empty when its `Data` is nil: what
`RecordPluginInstaller` writes into. -/
def dataOrEmpty (cm : ConfigMap) : StringMap :=
  match cm.Data with
  | none => ∅
  | some d => d

/-- The mapping a cluster holds: that of the stored document, empty when the
document is absent or its `Data` is nil. -/
def trackerMapping (c : Cluster) : StringMap :=
  match c.stored with
  | some cm => dataOrEmpty cm
  | none => ∅

/-- A cluster without pending faults: every coming call is answered from the
stored state. -/
def Healthy (c : Cluster) : Prop := ∀ f ∈ c.faults, f = none

/-- A remote call that writes: create or update. -/
def Call.isWrite : Call → Bool
  | .get _ _ => false
  | .create _ => true
  | .update _ => true

/-- A remote call that reads. -/
def Call.isGet : Call → Bool
  | .get _ _ => true
  | _ => false

/-- A remote call that is a replace-update. -/
def Call.isUpdate : Call → Bool
  | .update _ => true
  | _ => false

/-- A remote call that is a create. -/
def Call.isCreate : Call → Bool
  | .create _ => true
  | _ => false

/-- The calls an operation issued: those in the log after it that were not there
before. -/
def issued (before after : Cluster) : List Call :=
  after.calls.drop before.calls.length

/-! ## Sample clusters -/

/-- A fresh cluster: no tracker document, no faults, nothing called yet. -/
def emptyCluster : Cluster := { stored := none, faults := [], calls := [] }

/-- A tracker document holding the given mapping. -/
def trackerWith (d : Option StringMap) : ConfigMap := { newConfigMap with Data := d }

/-- A cluster storing a tracker document with the given mapping. -/
def clusterWith (d : Option StringMap) (faults : List (Option RemoteError)) : Cluster :=
  { stored := some (trackerWith d), faults := faults, calls := [] }

/-- The mapping `a ↦ helm, b ↦ argocd, c ↦ helm`. -/
def sampleMap : StringMap :=
  ((((∅ : StringMap).insert "a" InstallerTypeHelm).insert "b" InstallerTypeArgoCD).insert
    "c" InstallerTypeHelm)

/-- A failure of the credential plugin of the client: not a "does not exist"
answer of the server, though its text ends in "not found". -/
def execPluginError : RemoteError :=
  { doesNotExist := false
    text := "getting credentials: exec: executable kubelogin not found" }

/-- A deadline that expired during a remote call. -/
def deadlineError : RemoteError :=
  { doesNotExist := false, text := "context deadline exceeded" }

/-! ## Lemmas on the library functions and the client -/

theorem notFound_text_contains :
    stringsContains (notFoundError InstallerTrackerConfigMapName).text "not found" = true := by
  decide

/-- The loop of `GetAllPluginByInstaller` collects, in map order, the keys whose
value is the installer asked for. -/
theorem collect_eq (installer : String) (l : List (Sigma fun _ : String => String))
    (acc : List String) :
    l.foldl (fun data e => if e.2 = installer then data ++ [e.1] else data) acc
      = acc ++ (l.filter (fun e => decide (e.2 = installer))).map Sigma.fst := by
  induction l generalizing acc with
  | nil => simp
  | cons e l ih =>
    by_cases h : e.2 = installer
    · simp [List.foldl_cons, ih, h]
    · simp [List.foldl_cons, ih, h]

theorem collect_nodup (installer : String) (d : StringMap) :
    (d.entries.foldl (fun data e => if e.2 = installer then data ++ [e.1] else data)
      ([] : List String)).Nodup := by
  rw [collect_eq]
  simp only [List.nil_append]
  have hk : (d.entries.map Sigma.fst).Nodup := d.nodupKeys
  exact hk.sublist (List.filter_sublist _ |>.map _)

theorem mem_collect (installer p : String) (d : StringMap) :
    p ∈ d.entries.foldl (fun data e => if e.2 = installer then data ++ [e.1] else data)
      ([] : List String) ↔ d.lookup p = some installer := by
  rw [collect_eq]
  simp only [List.nil_append, List.mem_map, List.mem_filter, decide_eq_true_eq]
  constructor
  · rintro ⟨⟨k, v⟩, ⟨hmem, hv⟩, hk⟩
    simp only at hv hk
    subst hv; subst hk
    exact AList.mem_lookup_iff.mpr hmem
  · intro h
    exact ⟨⟨p, installer⟩, ⟨AList.mem_lookup_iff.mp h, rfl⟩, rfl⟩

theorem mapIndex_of_not_mem (d : StringMap) (p : String) (h : p ∉ d) : mapIndex d p = "" := by
  simp [mapIndex, AList.lookup_eq_none.mpr h]

theorem erase_of_not_mem (d : StringMap) (p : String) (h : p ∉ d) : d.erase p = d := by
  apply AList.ext
  exact List.kerase_of_not_mem_keys h

/-! ## What the reads return -/

/-- With its fetch answered from the cluster, `GetPluginInstaller` indexes the
mapping the cluster holds. -/
theorem Get_eval (p : String) (c : Cluster) (hfetch : nextFault c = none) :
    (GetPluginInstaller p c).1 = (mapIndex (trackerMapping c) p, none) := by
  unfold GetPluginInstaller clientGet trackerMapping dataOrEmpty
  rw [hfetch]
  cases hs : c.stored with
  | none => simp [notFound_text_contains, mapIndex]
  | some cm =>
    cases hd : cm.Data with
    | none => simp [hd, mapIndex]
    | some d => simp [hd]

/-- The answer of `GetPluginInstaller` depends on the cluster only through the
fault of the fetch and the entry of the plugin. -/
theorem Get_congr (p : String) (c c' : Cluster) (hf : nextFault c = nextFault c')
    (hm : mapIndex (trackerMapping c) p = mapIndex (trackerMapping c') p) :
    (GetPluginInstaller p c).1 = (GetPluginInstaller p c').1 := by
  cases h : nextFault c with
  | none => rw [Get_eval p c h, Get_eval p c' (hf ▸ h), hm]
  | some e =>
    have h' : nextFault c' = some e := hf ▸ h
    by_cases hc : stringsContains e.text "not found" = true <;>
    simp [GetPluginInstaller, clientGet, h, h', hc]

/-- With its fetch answered from the cluster, `GetAllPluginByInstaller` lists
the plugins the mapping associates with the installer. -/
theorem GetAll_mem (installer p : String) (c : Cluster) (hfetch : nextFault c = none) :
    p ∈ (GetAllPluginByInstaller installer c).1.1 ↔
      (trackerMapping c).lookup p = some installer := by
  unfold GetAllPluginByInstaller clientGet trackerMapping dataOrEmpty
  rw [hfetch]
  cases hs : c.stored with
  | none => simp [notFound_text_contains]
  | some cm =>
    cases hd : cm.Data with
    | none => simp [hd]
    | some d =>
      simp only [hd]
      exact mem_collect installer p d

/-! ## What the mutations do to the stored document -/

/-- The four ways `RecordPluginInstaller` can end: an error with the stored
document untouched, an error after the document was created, success on an
existing document, success on a document created by the call. -/
theorem Record_cases (p t : String) (c : Cluster) :
    (∃ e, (RecordPluginInstaller p t c).1 = some e ∧
        (RecordPluginInstaller p t c).2.stored = c.stored) ∨
    (∃ e, (RecordPluginInstaller p t c).1 = some e ∧ c.stored = none ∧
        (RecordPluginInstaller p t c).2.stored = some newConfigMap) ∨
    ((RecordPluginInstaller p t c).1 = none ∧ ∃ cm, c.stored = some cm ∧
        (RecordPluginInstaller p t c).2.stored =
          some { cm with Data := some ((dataOrEmpty cm).insert p t) }) ∨
    ((RecordPluginInstaller p t c).1 = none ∧ c.stored = none ∧
        (RecordPluginInstaller p t c).2.stored =
          some { newConfigMap with Data := some ((∅ : StringMap).insert p t) }) := by
  obtain ⟨stored, faults, calls⟩ := c
  rcases faults with _ | ⟨_ | e1, _ | ⟨_ | e2, _ | ⟨_ | e3, fs⟩⟩⟩ <;>
  rcases stored with _ | ⟨n, ns, l, _ | d⟩ <;>
  (try cases h1 : stringsContains e1.text "not found") <;>
  simp [RecordPluginInstaller, getOrCreateTrackerConfigMap, clientGet, clientCreate,
    clientUpdate, nextFault, notFound_text_contains, dataOrEmpty, newConfigMap, *]

/-- The three ways `RemovePluginInstaller` can end: an error with the stored
document untouched, success without a write, success with the entry erased. -/
theorem Remove_cases (p : String) (c : Cluster) :
    (∃ e, (RemovePluginInstaller p c).1 = some e ∧
        (RemovePluginInstaller p c).2.stored = c.stored) ∨
    ((RemovePluginInstaller p c).1 = none ∧
        (RemovePluginInstaller p c).2.stored = c.stored ∧
        (c.stored = none ∨ (∃ cm, c.stored = some cm ∧ cm.Data = none) ∨
          ∃ e, nextFault c = some e ∧ stringsContains e.text "not found" = true)) ∨
    ((RemovePluginInstaller p c).1 = none ∧ nextFault c = none ∧
        ∃ cm d, c.stored = some cm ∧ cm.Data = some d ∧
          (RemovePluginInstaller p c).2.stored = some { cm with Data := some (d.erase p) }) := by
  obtain ⟨stored, faults, calls⟩ := c
  rcases faults with _ | ⟨_ | e1, _ | ⟨_ | e2, fs⟩⟩ <;>
  rcases stored with _ | ⟨n, ns, l, _ | d⟩ <;>
  (try cases h1 : stringsContains e1.text "not found") <;>
  simp [RemovePluginInstaller, clientGet, clientUpdate, nextFault, notFound_text_contains, *]

/-- A successful `RecordPluginInstaller` sets the entry of the plugin in the
mapping and nothing else. -/
theorem Record_mapping (p t : String) (c : Cluster)
    (h : (RecordPluginInstaller p t c).1 = none) :
    trackerMapping (RecordPluginInstaller p t c).2 = (trackerMapping c).insert p t := by
  rcases Record_cases p t c with ⟨e, he, _⟩ | ⟨e, he, _⟩ | ⟨_, cm, hs, hs'⟩ | ⟨_, hs, hs'⟩
  · rw [h] at he; cases he
  · rw [h] at he; cases he
  · simp only [trackerMapping, hs, hs', dataOrEmpty]
  · simp [trackerMapping, hs, hs', dataOrEmpty]

/-- A failed mutation leaves the mapping as it was. -/
theorem Record_mapping_of_error (p t : String) (c : Cluster)
    (h : (RecordPluginInstaller p t c).1 ≠ none) :
    trackerMapping (RecordPluginInstaller p t c).2 = trackerMapping c := by
  rcases Record_cases p t c with ⟨e, _, hs'⟩ | ⟨e, _, hs, hs'⟩ | ⟨he, _⟩ | ⟨he, _⟩
  · simp only [trackerMapping, hs']
  · simp [trackerMapping, hs, hs', newConfigMap, dataOrEmpty]
  · exact absurd he h
  · exact absurd he h

/-- A `RemovePluginInstaller` whose fetch was not failed by an error that reads
as "not found" erases, on success, the entry of the plugin and nothing else. -/
theorem Remove_mapping (p : String) (c : Cluster)
    (hfetch : ∀ e, nextFault c = some e → stringsContains e.text "not found" = false)
    (h : (RemovePluginInstaller p c).1 = none) :
    trackerMapping (RemovePluginInstaller p c).2 = (trackerMapping c).erase p := by
  rcases Remove_cases p c with ⟨e, he, _⟩ | ⟨_, hs', hc⟩ | ⟨_, _, cm, d, hs, hd, hs'⟩
  · rw [h] at he; cases he
  · rcases hc with hs | ⟨cm, hs, hd⟩ | ⟨e, he, hce⟩
    · simp only [trackerMapping, hs', hs]
      exact (erase_of_not_mem ∅ p (AList.not_mem_empty p)).symm
    · simp only [trackerMapping, hs', hs, dataOrEmpty, hd]
      exact (erase_of_not_mem ∅ p (AList.not_mem_empty p)).symm
    · rw [hfetch e he] at hce; cases hce
  · simp [trackerMapping, hs', hs, dataOrEmpty, hd]

/-- Every `RemovePluginInstaller` leaves the entries of the other plugins as
they were. -/
theorem Remove_lookup_ne (p q : String) (c : Cluster) (hne : q ≠ p) :
    (trackerMapping (RemovePluginInstaller p c).2).lookup q = (trackerMapping c).lookup q := by
  rcases Remove_cases p c with ⟨e, _, hs'⟩ | ⟨_, hs', _⟩ | ⟨_, _, cm, d, hs, hd, hs'⟩
  · simp only [trackerMapping, hs']
  · simp only [trackerMapping, hs']
  · simp [trackerMapping, hs', hs, dataOrEmpty, hd, AList.lookup_erase_ne hne]

/-- A fetch failure whose text lacks "not found" makes each of the four
operations return an error. -/
theorem fetch_failure_is_fatal (p t : String) (c : Cluster) (e : RemoteError)
    (hf : nextFault c = some e) (hc : stringsContains e.text "not found" = false) :
    (RecordPluginInstaller p t c).1 ≠ none ∧ (GetPluginInstaller p c).1.2 ≠ none ∧
    (GetAllPluginByInstaller t c).1.2 ≠ none ∧ (RemovePluginInstaller p c).1 ≠ none := by
  simp [RecordPluginInstaller, getOrCreateTrackerConfigMap, GetPluginInstaller,
    GetAllPluginByInstaller, RemovePluginInstaller, clientGet, hf, hc]

/-- A successful `RemovePluginInstaller` whose fetch was not failed by an error
that reads as "not found" leaves the plugin untracked: the following read,
answered from the cluster, gives the empty string, and no
`GetAllPluginByInstaller` list holds the plugin. -/
theorem remove_then_read (pluginName : String) (c : Cluster)
    (hfetch : ∀ e, nextFault c = some e → stringsContains e.text "not found" = false)
    (hrem : (RemovePluginInstaller pluginName c).1 = none)
    (hnext : nextFault (RemovePluginInstaller pluginName c).2 = none) :
    (GetPluginInstaller pluginName (RemovePluginInstaller pluginName c).2).1 = ("", none) ∧
    ∀ installer,
      pluginName ∉ (GetAllPluginByInstaller installer (RemovePluginInstaller pluginName c).2).1.1 := by
  refine ⟨?_, ?_⟩
  · rw [Get_eval _ _ hnext, Remove_mapping _ _ hfetch hrem]
    simp [mapIndex, AList.lookup_erase]
  · intro installer
    rw [GetAll_mem _ _ _ hnext, Remove_mapping _ _ hfetch hrem]
    simp [AList.lookup_erase]

/-- A successful `RecordPluginInstaller p t` or `RemovePluginInstaller p` leaves
the answer of `GetPluginInstaller q` as it was, for every `q` other than `p` and
under every pattern of remote failures. -/
theorem read_of_other_plugin (p q t : String) (c : Cluster)
    (fs : List (Option RemoteError)) (hne : q ≠ p) :
    ((RecordPluginInstaller p t c).1 = none →
      (GetPluginInstaller q { (RecordPluginInstaller p t c).2 with faults := fs }).1
        = (GetPluginInstaller q { c with faults := fs }).1) ∧
    ((RemovePluginInstaller p c).1 = none →
      (GetPluginInstaller q { (RemovePluginInstaller p c).2 with faults := fs }).1
        = (GetPluginInstaller q { c with faults := fs }).1) := by
  constructor
  · intro h
    refine Get_congr q _ _ rfl ?_
    have hm := Record_mapping p t c h
    simp only [trackerMapping] at hm ⊢
    rw [hm]
    simp [mapIndex, AList.lookup_insert_ne hne]
  · intro h
    refine Get_congr q _ _ rfl ?_
    have hm := Remove_lookup_ne p q c hne
    simp only [trackerMapping] at hm ⊢
    simp [mapIndex, hm]

/-! ## Claims -/

/-- C2. Untracked default: when the fetch is answered from the cluster and the
plugin has no entry (the document is absent, or its data is nil, or its mapping
lacks the plugin), `GetPluginInstaller` returns the empty string and no
error. -/
theorem C2_untracked_default (pluginName : String) (c : Cluster)
    (hfetch : nextFault c = none)
    (hno : ∀ cm d, c.stored = some cm → cm.Data = some d → pluginName ∉ d) :
    (GetPluginInstaller pluginName c).1 = ("", none) := by
  unfold GetPluginInstaller clientGet
  rw [hfetch]
  cases hs : c.stored with
  | none => simp [notFound_text_contains]
  | some cm =>
    cases hd : cm.Data with
    | none => simp [hd]
    | some d => simp [hd, mapIndex_of_not_mem d pluginName (hno cm d hs hd)]

/-- Witness of C2 on three clusters: no document, a document with nil data, a
document whose mapping lacks the plugin. -/
theorem C2_untracked_default_witness :
    (GetPluginInstaller "never-recorded" emptyCluster).1 = ("", none) ∧
    (GetPluginInstaller "never-recorded" (clusterWith none [])).1 = ("", none) ∧
    (GetPluginInstaller "never-recorded" (clusterWith (some sampleMap) [none])).1 = ("", none) :=
  ⟨C2_untracked_default "never-recorded" emptyCluster rfl (by simp [emptyCluster]),
   by decide,
   by decide⟩

/-- C3. Partition by installer: when the fetch is answered from the cluster,
`GetAllPluginByInstaller` returns no error and a duplicate-free list; the list
is empty when the document is absent or has nil data, and otherwise holds
exactly the plugin names whose entry equals the installer asked for. -/
theorem C3_partition_by_installer (installer : String) (c : Cluster)
    (hfetch : nextFault c = none) :
    (GetAllPluginByInstaller installer c).1.2 = none ∧
    (GetAllPluginByInstaller installer c).1.1.Nodup ∧
    (∀ p, p ∈ (GetAllPluginByInstaller installer c).1.1 ↔
      (trackerMapping c).lookup p = some installer) ∧
    (match c.stored with
     | none => (GetAllPluginByInstaller installer c).1.1 = []
     | some cm =>
       match cm.Data with
       | none => (GetAllPluginByInstaller installer c).1.1 = []
       | some d => ∀ p, p ∈ (GetAllPluginByInstaller installer c).1.1 ↔
           d.lookup p = some installer) := by
  unfold GetAllPluginByInstaller clientGet trackerMapping dataOrEmpty
  rw [hfetch]
  cases hs : c.stored with
  | none => simp [notFound_text_contains]
  | some cm =>
    cases hd : cm.Data with
    | none => simp [hd]
    | some d =>
      simp only [hd]
      exact ⟨trivial, collect_nodup installer d, fun p => mem_collect installer p d,
        fun p => mem_collect installer p d⟩

/-- Witness of C3 on the mapping `a ↦ helm, b ↦ argocd, c ↦ helm`. -/
theorem C3_partition_by_installer_witness :
    nextFault (clusterWith (some sampleMap) []) = none ∧
    (∀ p, p ∈ (GetAllPluginByInstaller "helm" (clusterWith (some sampleMap) [])).1.1 ↔
      (trackerMapping (clusterWith (some sampleMap) [])).lookup p = some "helm") :=
  ⟨rfl, (C3_partition_by_installer "helm" (clusterWith (some sampleMap) []) rfl).2.2.1⟩

/-- C1. Round trip, last write wins: from every cluster state and under every
pattern of remote failures, when `RecordPluginInstaller p t` returns no error,
a following `GetPluginInstaller p` whose fetch is answered from the cluster
returns `t` and no error. -/
theorem C1_record_then_get (pluginName installerType : String) (c : Cluster)
    (hrec : (RecordPluginInstaller pluginName installerType c).1 = none)
    (hfetch : nextFault (RecordPluginInstaller pluginName installerType c).2 = none) :
    (GetPluginInstaller pluginName (RecordPluginInstaller pluginName installerType c).2).1
      = (installerType, none) := by
  rw [Get_eval _ _ hfetch, Record_mapping _ _ _ hrec]
  simp [mapIndex, AList.lookup_insert]

/-- Witness of C1: `a` is recorded with `helm`, recording it with `argocd`
makes the next read return `argocd`. -/
theorem C1_record_then_get_witness :
    (GetPluginInstaller "a" (clusterWith (some sampleMap) [])).1 = ("helm", none) ∧
    (GetPluginInstaller "a"
      (RecordPluginInstaller "a" "argocd" (clusterWith (some sampleMap) [])).2).1
      = ("argocd", none) :=
  ⟨by decide,
   C1_record_then_get "a" "argocd" (clusterWith (some sampleMap) []) (by decide) (by decide)⟩

/-- C4. Idempotent remove: when the plugin has no entry (document absent, nil
data, or a mapping without it), `RemovePluginInstaller` leaves the stored
document exactly as it was, whatever the remote failures; a second call leaves
the same state as the first; and with no remote call failing it returns no
error. -/
theorem C4_idempotent_remove (pluginName : String) (c : Cluster)
    (hno : ∀ cm d, c.stored = some cm → cm.Data = some d → pluginName ∉ d) :
    (RemovePluginInstaller pluginName c).2.stored = c.stored ∧
    (RemovePluginInstaller pluginName (RemovePluginInstaller pluginName c).2).2.stored
      = (RemovePluginInstaller pluginName c).2.stored ∧
    (Healthy c → (RemovePluginInstaller pluginName c).1 = none) := by
  have key : ∀ c' : Cluster, c'.stored = c.stored →
      (RemovePluginInstaller pluginName c').2.stored = c'.stored := by
    intro c' hc'
    rcases Remove_cases pluginName c' with ⟨e, _, hs'⟩ | ⟨_, hs', _⟩ | ⟨_, _, cm, d, hs, hd, hs'⟩
    · exact hs'
    · exact hs'
    · rw [hs', hs, erase_of_not_mem d pluginName (hno cm d (hc' ▸ hs) hd)]
      cases cm
      simp only at hd
      simp [hd]
  refine ⟨key c rfl, key _ (key c rfl), ?_⟩
  intro hh
  obtain ⟨stored, faults, calls⟩ := c
  rcases faults with _ | ⟨_ | e1, _ | ⟨_ | e2, fs⟩⟩ <;>
  rcases stored with _ | ⟨n, ns, l, _ | d⟩ <;>
  simp [Healthy] at hh <;>
  simp [RemovePluginInstaller, clientGet, clientUpdate, nextFault, notFound_text_contains]

/-- Witness of C4 on three clusters: no document, nil data, a mapping without
the plugin. -/
theorem C4_idempotent_remove_witness :
    ((RemovePluginInstaller "never-recorded" emptyCluster).1 = none ∧
      (RemovePluginInstaller "never-recorded" emptyCluster).2.stored = none) ∧
    ((RemovePluginInstaller "never-recorded" (clusterWith none [])).1 = none ∧
      (RemovePluginInstaller "never-recorded" (clusterWith none [])).2.stored
        = some (trackerWith none)) ∧
    ((RemovePluginInstaller "never-recorded" (clusterWith (some sampleMap) [])).1 = none ∧
      (RemovePluginInstaller "never-recorded" (clusterWith (some sampleMap) [])).2.stored
        = some (trackerWith (some sampleMap))) :=
  ⟨⟨(C4_idempotent_remove "never-recorded" emptyCluster (by simp [emptyCluster])).2.2
      (by simp [Healthy, emptyCluster]),
    (C4_idempotent_remove "never-recorded" emptyCluster (by simp [emptyCluster])).1⟩,
   ⟨by decide, rfl⟩,
   ⟨by decide, rfl⟩⟩

/-- C5, the code at the failing input.  The document holds `a ↦ helm` and the
fetch of `RemovePluginInstaller "a"` fails with the credential-plugin error,
whose text contains "not found".  The call returns no error, yet the entry is
still stored: the following `GetPluginInstaller "a"`, its fetch answered from
the cluster, returns `helm` and not the empty string, and
`GetAllPluginByInstaller "helm"` still lists `a`. -/
theorem C5_removed_plugin_still_tracked :
    (trackerMapping (clusterWith (some sampleMap) [some execPluginError])).lookup "a"
      = some "helm" ∧
    (RemovePluginInstaller "a" (clusterWith (some sampleMap) [some execPluginError])).1 = none ∧
    nextFault (RemovePluginInstaller "a"
      (clusterWith (some sampleMap) [some execPluginError])).2 = none ∧
    (GetPluginInstaller "a" (RemovePluginInstaller "a"
      (clusterWith (some sampleMap) [some execPluginError])).2).1 = ("helm", none) ∧
    (GetPluginInstaller "a" (RemovePluginInstaller "a"
      (clusterWith (some sampleMap) [some execPluginError])).2).1 ≠ ("", none) ∧
    "a" ∈ (GetAllPluginByInstaller "helm" (RemovePluginInstaller "a"
      (clusterWith (some sampleMap) [some execPluginError])).2).1.1 :=
  ⟨by decide, by decide, by decide, by decide, by decide, by decide⟩

/-- C6, the code at the failing input.  The document holds `a ↦ helm` and the
fetch fails with the credential-plugin error, which is not the "does not exist"
condition.  The reads answer as for an absent document (empty string, empty
list, no error), `RemovePluginInstaller` succeeds without removing anything,
and on a cluster without the document `RecordPluginInstaller` goes on to create
one. -/
theorem C6_fetch_failure_read_as_absence :
    execPluginError.doesNotExist = false ∧
    (GetPluginInstaller "a" (clusterWith (some sampleMap) [some execPluginError])).1
      = ("", none) ∧
    (GetAllPluginByInstaller "helm" (clusterWith (some sampleMap) [some execPluginError])).1
      = ([], none) ∧
    (RemovePluginInstaller "a" (clusterWith (some sampleMap) [some execPluginError])).1 = none ∧
    trackerMapping (RemovePluginInstaller "a"
      (clusterWith (some sampleMap) [some execPluginError])).2 = sampleMap ∧
    (RecordPluginInstaller "a" "helm"
      { stored := none, faults := [some execPluginError], calls := [] }).1 = none ∧
    ((RecordPluginInstaller "a" "helm"
      { stored := none, faults := [some execPluginError], calls := [] }).2).calls
      = [Call.get InstallerTrackerNamespace InstallerTrackerConfigMapName,
         Call.create newConfigMap,
         Call.update { newConfigMap with Data := some ((∅ : StringMap).insert "a" "helm") }] :=
  ⟨by decide, by decide, by decide, by decide, rfl, by decide, rfl⟩

/-- C7, counterexample.  On a cluster without the document, with the fetch and
the create answered and the update running into the deadline,
`RecordPluginInstaller` returns an error and the document, absent before, now
exists. -/
theorem C7_counterexample :
    (RecordPluginInstaller "cert-manager" "helm"
      { stored := none, faults := [none, none, some deadlineError], calls := [] }).1 ≠ none ∧
    ((RecordPluginInstaller "cert-manager" "helm"
      { stored := none, faults := [none, none, some deadlineError], calls := [] }).2).stored
      = some newConfigMap ∧
    ((RecordPluginInstaller "cert-manager" "helm"
      { stored := none, faults := [none, none, some deadlineError], calls := [] }).2).stored
      ≠ (none : Option ConfigMap) :=
  ⟨by decide, rfl, by simp [show ((RecordPluginInstaller "cert-manager" "helm"
      { stored := none, faults := [none, none, some deadlineError], calls := [] }).2).stored
      = some newConfigMap from rfl]⟩

/-- C7, amended.  Under every pattern of remote failures, a
`RemovePluginInstaller` that returns an error leaves the stored document
exactly as it was; a `RecordPluginInstaller` that returns an error leaves the
mapping as it was, and the stored document either exactly as it was or, when
there was none, freshly created with the static labels and an empty mapping. -/
theorem C7_failed_mutation (pluginName installerType : String) (c : Cluster) :
    ((RecordPluginInstaller pluginName installerType c).1 ≠ none →
      trackerMapping (RecordPluginInstaller pluginName installerType c).2 = trackerMapping c ∧
      ((RecordPluginInstaller pluginName installerType c).2.stored = c.stored ∨
        (c.stored = none ∧
          (RecordPluginInstaller pluginName installerType c).2.stored = some newConfigMap))) ∧
    ((RemovePluginInstaller pluginName c).1 ≠ none →
      (RemovePluginInstaller pluginName c).2.stored = c.stored) := by
  constructor
  · intro h
    refine ⟨Record_mapping_of_error _ _ _ h, ?_⟩
    rcases Record_cases pluginName installerType c with
      ⟨e, _, hs'⟩ | ⟨e, _, hs, hs'⟩ | ⟨he, _⟩ | ⟨he, _⟩
    · exact Or.inl hs'
    · exact Or.inr ⟨hs, hs'⟩
    · exact absurd he h
    · exact absurd he h
  · intro h
    rcases Remove_cases pluginName c with ⟨e, _, hs'⟩ | ⟨he, _⟩ | ⟨he, _⟩
    · exact hs'
    · exact absurd he h
    · exact absurd he h

/-- Witness of C7, amended: an update that runs into the deadline, for a record
and for a remove on an existing document. -/
theorem C7_failed_mutation_witness :
    trackerMapping (RecordPluginInstaller "b" "helm"
        (clusterWith (some sampleMap) [none, some deadlineError])).2
      = trackerMapping (clusterWith (some sampleMap) [none, some deadlineError]) ∧
    ((RemovePluginInstaller "b"
        (clusterWith (some sampleMap) [none, some deadlineError])).2).stored
      = (clusterWith (some sampleMap) [none, some deadlineError]).stored :=
  ⟨((C7_failed_mutation "b" "helm"
      (clusterWith (some sampleMap) [none, some deadlineError])).1 (by decide)).1,
   (C7_failed_mutation "b" "helm" (clusterWith (some sampleMap) [none, some deadlineError])).2
     (by decide)⟩

/-- C8. Reads are read-only: under every fetch outcome `GetPluginInstaller` and
`GetAllPluginByInstaller` issue one get and nothing else and leave the stored
document as it was; on a cluster without the document they answer as on one
whose document has an empty mapping, and the document is still absent
afterwards. -/
theorem C8_reads_are_read_only (pluginName installer : String) (c : Cluster) :
    (GetPluginInstaller pluginName c).2.stored = c.stored ∧
    issued c (GetPluginInstaller pluginName c).2
      = [Call.get InstallerTrackerNamespace InstallerTrackerConfigMapName] ∧
    (GetAllPluginByInstaller installer c).2.stored = c.stored ∧
    issued c (GetAllPluginByInstaller installer c).2
      = [Call.get InstallerTrackerNamespace InstallerTrackerConfigMapName] ∧
    (GetPluginInstaller pluginName { c with stored := none }).1
      = (GetPluginInstaller pluginName { c with stored := some newConfigMap }).1 ∧
    (GetAllPluginByInstaller installer { c with stored := none }).1
      = (GetAllPluginByInstaller installer { c with stored := some newConfigMap }).1 ∧
    (GetPluginInstaller pluginName { c with stored := none }).2.stored = none ∧
    (GetAllPluginByInstaller installer { c with stored := none }).2.stored = none := by
  obtain ⟨stored, faults, calls⟩ := c
  rcases faults with _ | ⟨_ | e1, fs⟩ <;>
  rcases stored with _ | ⟨n, ns, l, _ | d⟩ <;>
  (try cases h1 : stringsContains e1.text "not found") <;>
  simp [GetPluginInstaller, GetAllPluginByInstaller, clientGet, nextFault,
    notFound_text_contains, issued, newConfigMap, mapIndex, *]

/-- C9, counterexample.  `RemovePluginInstaller` on a document with nil data
gets past its fetch, returns no error and issues no write; and
`RecordPluginInstaller` on a cluster without the document issues two writes, a
create and an update. -/
theorem C9_counterexample :
    (clientGet InstallerTrackerNamespace InstallerTrackerConfigMapName (clusterWith none [])).1
      = .ok (trackerWith none) ∧
    (RemovePluginInstaller "x" (clusterWith none [])).1 = none ∧
    (issued (clusterWith none []) (RemovePluginInstaller "x" (clusterWith none [])).2).countP
      Call.isWrite = 0 ∧
    (RecordPluginInstaller "x" "helm" emptyCluster).1 = none ∧
    (issued emptyCluster (RecordPluginInstaller "x" "helm" emptyCluster).2).countP
      Call.isWrite = 2 ∧
    (issued emptyCluster (RecordPluginInstaller "x" "helm" emptyCluster).2).countP
      Call.isCreate = 1 :=
  ⟨rfl, by decide, by decide, by decide, by decide, by decide⟩

/-- C9, amended.  Under every pattern of remote failures each of the four
operations issues exactly one get, and the reads issue no write.
`RecordPluginInstaller` issues at most one create, and when its get is answered
from the cluster, exactly one if the document is absent and none if it exists;
it issues one replace-update when its get-or-create succeeds and none
otherwise, and the update carries the whole mapping, the prior one with the
plugin set.  `RemovePluginInstaller` issues no create; it issues one
replace-update when its get returns a document with non-nil data and none
otherwise, and the update carries the prior mapping with the plugin erased. -/
theorem C9_remote_calls (pluginName installerType : String) (c : Cluster) :
    ((issued c (RecordPluginInstaller pluginName installerType c).2).countP Call.isGet = 1 ∧
     (issued c (GetPluginInstaller pluginName c).2).countP Call.isGet = 1 ∧
     (issued c (GetAllPluginByInstaller installerType c).2).countP Call.isGet = 1 ∧
     (issued c (RemovePluginInstaller pluginName c).2).countP Call.isGet = 1) ∧
    ((issued c (GetPluginInstaller pluginName c).2).countP Call.isWrite = 0 ∧
     (issued c (GetAllPluginByInstaller installerType c).2).countP Call.isWrite = 0) ∧
    ((issued c (RecordPluginInstaller pluginName installerType c).2).countP Call.isCreate ≤ 1 ∧
     (nextFault c = none →
        (issued c (RecordPluginInstaller pluginName installerType c).2).countP Call.isCreate
          = if c.stored.isSome then 0 else 1) ∧
     (issued c (RecordPluginInstaller pluginName installerType c).2).countP Call.isUpdate
        = (if (getOrCreateTrackerConfigMap c).1.isOk then 1 else 0) ∧
     ∀ cm, Call.update cm ∈ issued c (RecordPluginInstaller pluginName installerType c).2 →
        cm.Data = some ((trackerMapping c).insert pluginName installerType)) ∧
    ((issued c (RemovePluginInstaller pluginName c).2).countP Call.isCreate = 0 ∧
     (issued c (RemovePluginInstaller pluginName c).2).countP Call.isUpdate
        = (match (clientGet InstallerTrackerNamespace InstallerTrackerConfigMapName c).1 with
           | .ok configMap => if configMap.Data.isSome then 1 else 0
           | .error _ => 0) ∧
     ∀ cm, Call.update cm ∈ issued c (RemovePluginInstaller pluginName c).2 →
        cm.Data = some ((trackerMapping c).erase pluginName)) := by
  obtain ⟨stored, faults, calls⟩ := c
  rcases faults with _ | ⟨_ | e1, _ | ⟨_ | e2, _ | ⟨_ | e3, fs⟩⟩⟩ <;>
  rcases stored with _ | ⟨n, ns, l, _ | d⟩ <;>
  (try cases h1 : stringsContains e1.text "not found") <;>
  simp [RecordPluginInstaller, getOrCreateTrackerConfigMap, RemovePluginInstaller,
    GetPluginInstaller, GetAllPluginByInstaller, clientGet, clientCreate, clientUpdate,
    nextFault, notFound_text_contains, issued, Call.isGet, Call.isUpdate, Call.isCreate,
    Call.isWrite, Except.isOk, Except.toBool, trackerMapping, dataOrEmpty, newConfigMap, *]

/-- Witness of C9, amended: on a fresh cluster, its get answered that the
document is absent, `RecordPluginInstaller` issues one create. -/
theorem C9_remote_calls_witness :
    nextFault emptyCluster = none ∧
    (issued emptyCluster (RecordPluginInstaller "x" "helm" emptyCluster).2).countP Call.isCreate
      = (if emptyCluster.stored.isSome then 0 else 1) :=
  ⟨rfl, (C9_remote_calls "x" "helm" emptyCluster).2.2.1.2.1 rfl⟩

/-- C10, the code at the failing input.  The document holds
`a ↦ helm, b ↦ argocd, c ↦ helm` and the fetch of `RemovePluginInstaller "b"`
fails with the credential-plugin error, whose text contains "not found".  The
call returns no error, and the stored mapping afterwards is the prior mapping
itself, `b` still at `argocd`, not the prior mapping with `b` erased. -/
theorem C10_remove_success_without_erase :
    (RemovePluginInstaller "b" (clusterWith (some sampleMap) [some execPluginError])).1 = none ∧
    trackerMapping (RemovePluginInstaller "b"
      (clusterWith (some sampleMap) [some execPluginError])).2
      = trackerMapping (clusterWith (some sampleMap) [some execPluginError]) ∧
    (trackerMapping (RemovePluginInstaller "b"
      (clusterWith (some sampleMap) [some execPluginError])).2).lookup "b" = some "argocd" ∧
    ((trackerMapping (clusterWith (some sampleMap) [some execPluginError])).erase "b").lookup "b"
      = none ∧
    trackerMapping (RemovePluginInstaller "b"
      (clusterWith (some sampleMap) [some execPluginError])).2
      ≠ (trackerMapping (clusterWith (some sampleMap) [some execPluginError])).erase "b" := by
  refine ⟨by decide, rfl, by decide, by decide, ?_⟩
  intro h
  have hb := congrArg (AList.lookup "b") h
  revert hb
  decide

end InstallerTracker
